import Mathlib

/-!
Verification of the PawBondAI Compatibility & Outcome-Prediction Engine.

The definitions below are a shallow embedding of
`backend/app/services/compatibility_service.py` and of the prediction
endpoint in `backend/app/api/analytics.py`.  Python floats are modelled by
rationals, optional/absent document fields by `Option`, and Python
truthiness tests by explicit helper functions.  Collaborator calls
(Elasticsearch searches, the BigQuery classifier) are modelled by passing
their outcome in as an explicit argument.
-/

namespace PawBond

/-- Python `max(a, b)` on rationals. -/
def pyMax (a b : ℚ) : ℚ := if a ≤ b then b else a

/-- Python `min(a, b)` on rationals. -/
def pyMin (a b : ℚ) : ℚ := if b ≤ a then b else a

/-- Python truthiness of an optional string field: `None` and `""` are falsy. -/
def strTruthy : Option String → Bool
  | none => false
  | some s => !s.isEmpty

/-- Python truthiness of an optional numeric field: `None` and `0` are falsy. -/
def numTruthy : Option ℚ → Bool
  | none => false
  | some v => v != 0

/-- `hasStart pat s` : `pat` occurs at the start of `s` (character lists). -/
def hasStart : List Char → List Char → Bool
  | [], _ => true
  | _ :: _, [] => false
  | p :: ps, c :: cs => p == c && hasStart ps cs

/-- `listContainsSub pat s` : `pat` occurs contiguously somewhere in `s`. -/
def listContainsSub (pat : List Char) : List Char → Bool
  | [] => hasStart pat []
  | c :: cs => hasStart pat (c :: cs) || listContainsSub pat cs

/-- Python `pat in s` substring test on strings. -/
def strContainsB (s pat : String) : Bool := listContainsSub pat.data s.data

/-- ASCII lowercasing of one character, as Python `str.lower` does on the
ASCII keywords the service matches against. -/
def charLower (c : Char) : Char :=
  if 'A' ≤ c && c ≤ 'Z' then Char.ofNat (c.toNat + 32) else c

/-- Python `s.lower()` (ASCII). -/
def toLowerStr (s : String) : String := ⟨s.data.map charLower⟩

/-- `pet_experience` block of an application document. -/
structure PetExperience where
  has_current_or_past_pets : Bool
  pet_history_details : Option String
  volunteer_experience_details : Option String
  ever_surrendered_pet : Bool
  surrender_reason : Option String
  new_pet_introduction_plan : Option String
deriving DecidableEq

/-- `housing_info` block of an application document. -/
structure HousingInfo where
  type : String
  ownership_status : String
  landlord_permission_granted : String
  size_sqm : Option ℚ
  has_yard_or_balcony : Bool
deriving DecidableEq

/-- `household_info` block of an application document. -/
structure HouseholdInfo where
  all_members_agree : Option String
  has_allergies : Bool
  allergy_details : Option String
  household_size : Option ℕ
  members_description : Option String
deriving DecidableEq

/-- `application_meta` block of an application document. -/
structure ApplicationMeta where
  type : String
  is_kara_donor : Bool
deriving DecidableEq

/-- `applicant_info` block of an application document. -/
structure ApplicantInfo where
  marital_status : String
  emergency_contact_phone : Option String
deriving DecidableEq

/-- An application document as read by the compatibility service. -/
structure Application where
  pet_experience : PetExperience
  housing_info : HousingInfo
  household_info : HouseholdInfo
  application_meta : ApplicationMeta
  applicant_info : ApplicantInfo
deriving DecidableEq

/-- A dog document as read by the compatibility service. -/
structure Dog where
  name : String
  breed : String
  age : ℕ
  weight_kg : Option ℚ
  behavioral_notes : Option String
  medical_history : Option String
deriving DecidableEq

/-- `CompatibilityService.__init__`: the fixed dimension weights. -/
structure Weights where
  experience : ℚ
  housing : ℚ
  lifestyle : ℚ
  household : ℚ
  motivation : ℚ

/-- The weights dict from `CompatibilityService.__init__`. -/
def weights : Weights :=
  { experience := 25/100
    housing := 20/100
    lifestyle := 15/100
    household := 15/100
    motivation := 25/100 }

/-- `_score_experience`: pet-experience dimension (0-100). -/
def score_experience (app : Application) : ℚ :=
  let score : ℚ := 50
  let score :=
    if app.pet_experience.has_current_or_past_pets then
      let s := score + 20
      if strTruthy app.pet_experience.pet_history_details then s + 10 else s
    else score
  let score :=
    if strTruthy app.pet_experience.volunteer_experience_details then score + 15 else score
  let score :=
    if app.pet_experience.ever_surrendered_pet then
      if strTruthy app.pet_experience.surrender_reason then score - 10 else score - 20
    else score
  let score :=
    if strTruthy app.pet_experience.new_pet_introduction_plan then
      let plan_length := (app.pet_experience.new_pet_introduction_plan.getD "").length
      if plan_length > 200 then score + 15
      else if plan_length > 50 then score + 5
      else score
    else score
  pyMin 100 (pyMax 0 score)

/-- The space-requirement adjustment inside `_score_housing` (lines 144-152). -/
def spaceAdj (app : Application) (dog : Dog) : ℚ :=
  if numTruthy dog.weight_kg && numTruthy app.housing_info.size_sqm then
    let w := dog.weight_kg.getD 0
    let sz := app.housing_info.size_sqm.getD 0
    if w > 30 then
      if sz ≥ 100 then 15 else if sz < 70 then -20 else 0
    else if w > 15 then
      if sz ≥ 70 then 10 else 0
    else 0
  else 0

/-- The high-energy / yard adjustment inside `_score_housing` (lines 154-164). -/
def energyAdj (app : Application) (dog : Dog) : ℚ :=
  let behavioral_text := toLowerStr (dog.behavioral_notes.getD "")
  let high_energy :=
    strContainsB behavioral_text "active" || strContainsB behavioral_text "energetic" ||
      strContainsB behavioral_text "playful" || strContainsB behavioral_text "high energy"
  if high_energy then
    if app.housing_info.has_yard_or_balcony then 15 else -15
  else 0

/-- The landlord-permission adjustment inside `_score_housing` (lines 166-173). -/
def landlordAdj (app : Application) : ℚ :=
  if app.housing_info.ownership_status = "Leased" ∨
      app.housing_info.ownership_status = "Rented" then
    if app.housing_info.landlord_permission_granted = "Yes" then 10
    else if app.housing_info.landlord_permission_granted = "No" then -40
    else -25
  else 0

/-- The housing-type adjustment inside `_score_housing` (lines 175-179). -/
def typeAdj (app : Application) (dog : Dog) : ℚ :=
  if app.housing_info.type = "Detached House" ∨ app.housing_info.type = "Townhouse" then 5
  else if app.housing_info.type = "Apartment" ∧ numTruthy dog.weight_kg ∧
      dog.weight_kg.getD 0 > 35 then -10
  else 0

/-- `_score_housing`: housing dimension (0-100); base 70 plus the four
sequential adjustments, clamped. -/
def score_housing (app : Application) (dog : Dog) : ℚ :=
  pyMin 100 (pyMax 0 (70 + spaceAdj app dog + energyAdj app dog + landlordAdj app + typeAdj app dog))

/-- `_score_lifestyle`: lifestyle dimension (0-100). -/
def score_lifestyle (app : Application) : ℚ :=
  let score : ℚ := 70
  let score :=
    if app.application_meta.type = "Adoption" then score + 20
    else if app.application_meta.type = "Foster" then score + 10
    else score
  let score := if app.application_meta.is_kara_donor then score + 15 else score
  let score :=
    if app.applicant_info.marital_status = "Married" ∨
        app.applicant_info.marital_status = "Partnered" then score + 5
    else score
  pyMin 100 (pyMax 0 score)

/-- `_score_household`: household dimension (0-100). -/
def score_household (app : Application) : ℚ :=
  let score : ℚ := 70
  let score :=
    if strTruthy app.household_info.all_members_agree then
      let agreement_text := toLowerStr (app.household_info.all_members_agree.getD "")
      if strContainsB agreement_text "yes" || strContainsB agreement_text "agree" then
        score + 20
      else if strContainsB agreement_text "no" || strContainsB agreement_text "disagree" then
        score - 40
      else score
    else score
  let score :=
    if app.household_info.has_allergies then
      if strTruthy app.household_info.allergy_details then score - 10 else score - 20
    else score
  let score :=
    match app.household_info.household_size with
    | none => score
    | some n =>
      if n = 0 then score
      else if n = 1 then
        if strTruthy app.applicant_info.emergency_contact_phone then score + 5 else score
      else score + 10
  let score :=
    if strTruthy app.household_info.members_description then
      if (app.household_info.members_description.getD "").length > 100 then score + 10
      else score
    else score
  pyMin 100 (pyMax 0 score)

/-- Outcome of the Elasticsearch semantic search inside `_score_motivation`:
either the ordered list of hit scores, or a raised exception. -/
inductive SearchOutcome where
  | ok (hits : List ℚ)
  | err
deriving DecidableEq

/-- `_score_motivation`: motivation dimension (0-100); the top hit score
(typically 0-2) is mapped by `min(100, max(0, score/2*100))`; no hits or a
collaborator error yield the neutral 50. -/
def score_motivation : SearchOutcome → ℚ
  | SearchOutcome.ok hits =>
    match hits with
    | es_score :: _ => pyMin 100 (pyMax 0 (es_score / 2 * 100))
    | [] => 50
  | SearchOutcome.err => 50

/-- Python `round(x, 2)`.  Modelled with Mathlib `round` (ties rounded up
rather than to even; no claim exercises an exact half-cent tie). -/
def round2 (x : ℚ) : ℚ := (round (x * 100) : ℤ) / 100

/-- Python `round(x, 4)`, as used for the prediction confidence. -/
def round4 (x : ℚ) : ℚ := (round (x * 10000) : ℤ) / 10000

/-- The result dict of `calculate_compatibility`. -/
structure CompatibilityResult where
  overall_score : ℚ
  experience : ℚ
  housing : ℚ
  lifestyle : ℚ
  household : ℚ
  motivation : ℚ
  recommendation : String
  concerns : List String
deriving DecidableEq

/-- The concern list built by `_generate_recommendation` (lines 336-362),
as the in-order concatenation of its sequential appends.  The literal
concern strings are kept except that apostrophes are omitted from the
motivation concern. -/
def concernsOf (experience housing household lifestyle motivation : ℚ)
    (app : Application) : List String :=
  (if experience < 40 then ["Limited pet ownership experience"] else []) ++
  (if housing < 50 then
      ["Housing may not be suitable"] ++
        (if (app.housing_info.ownership_status = "Leased" ∨
              app.housing_info.ownership_status = "Rented") ∧
            app.housing_info.landlord_permission_granted ≠ "Yes" then
          ["CRITICAL: No landlord permission"]
        else [])
    else []) ++
  (if household < 50 then
      ["Household compatibility concerns"] ++
        (if app.household_info.has_allergies then ["Household member has allergies"] else [])
    else []) ++
  (if lifestyle < 50 then ["Lifestyle may not align with pet needs"] else []) ++
  (if motivation < 50 then
      ["Application essays dont strongly align with this dogs profile"]
    else []) ++
  (if app.pet_experience.ever_surrendered_pet ∧
      ¬ strTruthy app.pet_experience.surrender_reason then
    ["Previous pet surrender without explanation"]
  else [])

/-- Whether a concern string is flagged CRITICAL (`"CRITICAL" in c`). -/
def isCriticalConcern (c : String) : Bool := strContainsB c "CRITICAL"

/-- `_generate_recommendation`: concern derivation plus the ternary
decision on the (unrounded) overall score. -/
def generate_recommendation (overall_score : ℚ)
    (experience housing lifestyle household motivation : ℚ)
    (app : Application) : String × List String :=
  let concerns := concernsOf experience housing household lifestyle motivation app
  let critical_concerns := concerns.any isCriticalConcern
  let recommendation :=
    if critical_concerns = true ∨ overall_score < 50 then "reject"
    else if 80 ≤ overall_score ∧ concerns.length ≤ 1 then "approve"
    else "review"
  (recommendation, concerns)

/-- `calculate_compatibility` on already-fetched documents, with the
outcome of the motivation semantic search passed in explicitly. -/
def calculate_compatibility (app : Application) (dog : Dog)
    (motivationSearch : SearchOutcome) : CompatibilityResult :=
  let experience_score := score_experience app
  let housing_score := score_housing app dog
  let lifestyle_score := score_lifestyle app
  let household_score := score_household app
  let motivation_score := score_motivation motivationSearch
  let overall_score :=
    experience_score * weights.experience + housing_score * weights.housing +
      lifestyle_score * weights.lifestyle + household_score * weights.household +
      motivation_score * weights.motivation
  let rc := generate_recommendation overall_score experience_score housing_score
    lifestyle_score household_score motivation_score app
  { overall_score := round2 overall_score
    experience := round2 experience_score
    housing := round2 housing_score
    lifestyle := round2 lifestyle_score
    household := round2 household_score
    motivation := round2 motivation_score
    recommendation := rc.1
    concerns := rc.2 }

/-- The result dict of `predict_adoption_outcome` (the fields the claims
are about). -/
structure Prediction where
  predicted_outcome : String
  confidence : ℚ
  source : String
deriving DecidableEq

/-- Outcome of the BigQuery ML classifier call: a returned prediction, or
a raised exception. -/
inductive BqOutcome where
  | ok (predicted_outcome : String) (confidence : ℚ)
  | err
deriving DecidableEq

/-- The `success_ratio` local of the fallback branch: share of the summed
success-side hit scores, `0.5` when both sides sum to zero. -/
def success_ratio (success_scores failed_scores : List ℚ) : ℚ :=
  let total_score := success_scores.sum + failed_scores.sum
  if 0 < total_score then success_scores.sum / total_score else 1/2

/-- The similarity-voting fallback branch of `predict_adoption_outcome`
(`analytics.py` lines 153-226), taking the hit scores of the two
semantic searches as inputs. -/
def fallback_prediction (success_scores failed_scores : List ℚ) : Prediction :=
  let ratio := success_ratio success_scores failed_scores
  let predicted_outcome := if (1:ℚ)/2 < ratio then "success" else "returned"
  let confidence := if predicted_outcome = "success" then ratio else 1 - ratio
  { predicted_outcome := predicted_outcome
    confidence := round4 confidence
    source := "Elasticsearch Semantic Pattern Matching" }

/-- `predict_adoption_outcome`: primary classifier path, with local
recovery to similarity voting when the classifier raises. -/
def predict_adoption_outcome : BqOutcome → List ℚ → List ℚ → Prediction
  | BqOutcome.ok po conf, _, _ =>
    { predicted_outcome := po, confidence := conf, source := "BigQuery ML" }
  | BqOutcome.err, success_scores, failed_scores =>
    fallback_prediction success_scores failed_scores

/-- One entry of the ranked list: the fetch position of the candidate and
its compatibility result. -/
structure RankedEntry where
  idx : ℕ
  compatibility : CompatibilityResult
deriving DecidableEq

/-- The per-candidate loop of `rank_applications_for_dog` (lines 396-416):
candidates are scored in fetch order; a candidate whose scoring raises is
skipped.  `i` is the fetch position of the first list element. -/
def scoredFrom : ℕ → List (Except Unit CompatibilityResult) → List RankedEntry
  | _, [] => []
  | i, Except.ok c :: xs => ⟨i, c⟩ :: scoredFrom (i + 1) xs
  | i, Except.error _ :: xs => scoredFrom (i + 1) xs

/-- All successfully scored candidates, tagged with their fetch position. -/
def scoredEntries (xs : List (Except Unit CompatibilityResult)) : List RankedEntry :=
  scoredFrom 0 xs

/-- Stable insertion for descending sort on `overall_score`: the inserted
element goes after exactly the elements with strictly greater score, as a
stable descending sort (Python `list.sort(key=..., reverse=True)`) places
an element arriving later in fetch order. -/
def insertDesc (x : RankedEntry) : List RankedEntry → List RankedEntry
  | [] => [x]
  | y :: ys =>
    if x.compatibility.overall_score < y.compatibility.overall_score then
      y :: insertDesc x ys
    else x :: y :: ys

/-- Stable descending sort on `overall_score` (`ranked_applications.sort`
with `reverse=True`, which is stable in Python). -/
def sortScoredDesc : List RankedEntry → List RankedEntry
  | [] => []
  | x :: xs => insertDesc x (sortScoredDesc xs)

/-- `rank_applications_for_dog` on the fetched candidate pool, with each
candidate's scoring outcome passed in explicitly: score, skip failures,
sort by overall score descending (stable), return the first `limit`. -/
def rank_applications_for_dog (xs : List (Except Unit CompatibilityResult))
    (limit : ℕ) : List RankedEntry :=
  (sortScoredDesc (scoredEntries xs)).take limit

/-- A neutral application: no pets, no surrender, owned housing, no
household data. -/
def baseApp : Application :=
  { pet_experience :=
      { has_current_or_past_pets := false
        pet_history_details := none
        volunteer_experience_details := none
        ever_surrendered_pet := false
        surrender_reason := none
        new_pet_introduction_plan := none }
    housing_info :=
      { type := "Apartment", ownership_status := "Owned"
        landlord_permission_granted := "Not_Applicable"
        size_sqm := none, has_yard_or_balcony := false }
    household_info :=
      { all_members_agree := none, has_allergies := false, allergy_details := none
        household_size := none, members_description := none }
    application_meta := { type := "Adoption", is_kara_donor := false }
    applicant_info := { marital_status := "Single", emergency_contact_phone := none } }

/-- The housing scenario of the spec: Apartment, Leased, landlord
permission "No", no size on record. -/
def aptLeasedApp : Application :=
  { baseApp with
    housing_info :=
      { type := "Apartment", ownership_status := "Leased"
        landlord_permission_granted := "No"
        size_sqm := none, has_yard_or_balcony := false } }

/-- A 35 kg dog with no behavioral notes. -/
def dog35 : Dog :=
  { name := "Scout", breed := "Labrador", age := 4, weight_kg := some 35
    behavioral_notes := none, medical_history := none }

/-- A leased application with landlord permission "No" whose other housing
attributes earn every available bonus. -/
def bonusLeasedApp : Application :=
  { pet_experience :=
      { has_current_or_past_pets := true
        pet_history_details := some "raised two shelter dogs"
        volunteer_experience_details := some "weekly shelter walks"
        ever_surrendered_pet := false
        surrender_reason := none
        new_pet_introduction_plan := none }
    housing_info :=
      { type := "Townhouse", ownership_status := "Leased"
        landlord_permission_granted := "No"
        size_sqm := some 120, has_yard_or_balcony := true }
    household_info :=
      { all_members_agree := some "yes", has_allergies := false, allergy_details := none
        household_size := some 2, members_description := none }
    application_meta := { type := "Adoption", is_kara_donor := true }
    applicant_info := { marital_status := "Married", emergency_contact_phone := none } }

/-- An active 32 kg dog. -/
def dog32 : Dog :=
  { name := "Bear", breed := "Husky", age := 3, weight_kg := some 32
    behavioral_notes := some "active and friendly", medical_history := none }

/-- An application whose all-members-agree answer is literally
"disagree". -/
def disagreeApp : Application :=
  { baseApp with
    household_info :=
      { all_members_agree := some "disagree", has_allergies := false
        allergy_details := none, household_size := none, members_description := none } }


lemma clamp_nonneg (s : ℚ) : 0 ≤ pyMin 100 (pyMax 0 s) := by
  unfold pyMin pyMax
  split_ifs <;> linarith

lemma clamp_le_100 (s : ℚ) : pyMin 100 (pyMax 0 s) ≤ 100 := by
  unfold pyMin pyMax
  split_ifs <;> linarith

lemma score_experience_bounds (app : Application) :
    0 ≤ score_experience app ∧ score_experience app ≤ 100 := by
  unfold score_experience
  exact ⟨clamp_nonneg _, clamp_le_100 _⟩

lemma score_housing_bounds (app : Application) (dog : Dog) :
    0 ≤ score_housing app dog ∧ score_housing app dog ≤ 100 := by
  unfold score_housing
  exact ⟨clamp_nonneg _, clamp_le_100 _⟩

lemma score_lifestyle_bounds (app : Application) :
    0 ≤ score_lifestyle app ∧ score_lifestyle app ≤ 100 := by
  unfold score_lifestyle
  exact ⟨clamp_nonneg _, clamp_le_100 _⟩

lemma score_household_bounds (app : Application) :
    0 ≤ score_household app ∧ score_household app ≤ 100 := by
  unfold score_household
  exact ⟨clamp_nonneg _, clamp_le_100 _⟩

lemma score_motivation_bounds (m : SearchOutcome) :
    0 ≤ score_motivation m ∧ score_motivation m ≤ 100 := by
  cases m with
  | ok hits =>
    cases hits with
    | nil => norm_num [score_motivation]
    | cons a t => exact ⟨clamp_nonneg _, clamp_le_100 _⟩
  | err => norm_num [score_motivation]

lemma round2_mono {x y : ℚ} (h : x ≤ y) : round2 x ≤ round2 y := by
  unfold round2
  have hr : round (x * 100) ≤ round (y * 100) := by
    rw [round_eq, round_eq]
    exact Int.floor_le_floor (by linarith)
  have : ((round (x * 100) : ℤ) : ℚ) ≤ ((round (y * 100) : ℤ) : ℚ) := by exact_mod_cast hr
  linarith

lemma round2_zero : round2 0 = 0 := by
  unfold round2
  norm_num

lemma round2_hundred : round2 100 = 100 := by
  unfold round2
  norm_num

lemma round2_bounds {x : ℚ} (h0 : 0 ≤ x) (h1 : x ≤ 100) :
    0 ≤ round2 x ∧ round2 x ≤ 100 := by
  constructor
  · have := round2_mono h0
    rwa [round2_zero] at this
  · have := round2_mono h1
    rwa [round2_hundred] at this

/-- C2: for every scored pair, `overall_score` is the weighted sum of the
five dimension scores with the fixed weights experience 0.25, housing
0.20, lifestyle 0.15, household 0.15, motivation 0.25 (summing to exactly
1.0), rounded to 2 decimals. -/
theorem c2_overall_weighted_sum :
    (weights.experience = 25/100 ∧ weights.housing = 20/100 ∧
      weights.lifestyle = 15/100 ∧ weights.household = 15/100 ∧
      weights.motivation = 25/100 ∧
      weights.experience + weights.housing + weights.lifestyle +
        weights.household + weights.motivation = 1) ∧
    ∀ (app : Application) (dog : Dog) (m : SearchOutcome),
      (calculate_compatibility app dog m).overall_score =
        round2 (score_experience app * weights.experience +
          score_housing app dog * weights.housing +
          score_lifestyle app * weights.lifestyle +
          score_household app * weights.household +
          score_motivation m * weights.motivation) := by
  constructor
  · norm_num [weights]
  · intro app dog m
    rfl

/-- C8: for all inputs, each dimension score of the compatibility result
and the overall score lie in [0, 100]; so do the unrounded scorer
outputs. -/
theorem c8_scores_in_range (app : Application) (dog : Dog) (m : SearchOutcome) :
    (0 ≤ (calculate_compatibility app dog m).experience ∧
      (calculate_compatibility app dog m).experience ≤ 100) ∧
    (0 ≤ (calculate_compatibility app dog m).housing ∧
      (calculate_compatibility app dog m).housing ≤ 100) ∧
    (0 ≤ (calculate_compatibility app dog m).lifestyle ∧
      (calculate_compatibility app dog m).lifestyle ≤ 100) ∧
    (0 ≤ (calculate_compatibility app dog m).household ∧
      (calculate_compatibility app dog m).household ≤ 100) ∧
    (0 ≤ (calculate_compatibility app dog m).motivation ∧
      (calculate_compatibility app dog m).motivation ≤ 100) ∧
    (0 ≤ (calculate_compatibility app dog m).overall_score ∧
      (calculate_compatibility app dog m).overall_score ≤ 100) := by
  have he := score_experience_bounds app
  have hh := score_housing_bounds app dog
  have hl := score_lifestyle_bounds app
  have hd := score_household_bounds app
  have hm := score_motivation_bounds m
  have hov : 0 ≤ score_experience app * weights.experience +
      score_housing app dog * weights.housing +
      score_lifestyle app * weights.lifestyle +
      score_household app * weights.household +
      score_motivation m * weights.motivation ∧
      score_experience app * weights.experience +
      score_housing app dog * weights.housing +
      score_lifestyle app * weights.lifestyle +
      score_household app * weights.household +
      score_motivation m * weights.motivation ≤ 100 := by
    simp only [weights]
    constructor <;> nlinarith [he.1, he.2, hh.1, hh.2, hl.1, hl.2, hd.1, hd.2, hm.1, hm.2]
  simp only [calculate_compatibility]
  exact ⟨round2_bounds he.1 he.2, round2_bounds hh.1 hh.2, round2_bounds hl.1 hl.2,
    round2_bounds hd.1 hd.2, round2_bounds hm.1 hm.2, round2_bounds hov.1 hov.2⟩

/-- C10: a motivation search that succeeds with zero hits scores the
motivation dimension exactly 50, the same neutral value as the
collaborator-error case, and the compatibility computation still
produces a result with motivation dimension 50. -/
theorem c10_no_hits_neutral :
    score_motivation (SearchOutcome.ok []) = 50 ∧
    score_motivation SearchOutcome.err = 50 ∧
    ∀ (app : Application) (dog : Dog),
      (calculate_compatibility app dog (SearchOutcome.ok [])).motivation = 50 := by
  refine ⟨rfl, rfl, fun app dog => ?_⟩
  show round2 (score_motivation (SearchOutcome.ok [])) = 50
  show round2 50 = 50
  unfold round2
  norm_num

lemma round4_mono {x y : ℚ} (h : x ≤ y) : round4 x ≤ round4 y := by
  unfold round4
  have hr : round (x * 10000) ≤ round (y * 10000) := by
    rw [round_eq, round_eq]
    exact Int.floor_le_floor (by linarith)
  have : ((round (x * 10000) : ℤ) : ℚ) ≤ ((round (y * 10000) : ℤ) : ℚ) := by exact_mod_cast hr
  linarith

lemma round4_half : round4 (1/2) = 1/2 := by
  unfold round4
  norm_num

lemma round4_one : round4 1 = 1 := by
  unfold round4
  norm_num

lemma fallback_confidence_eq (s f : List ℚ) :
    (fallback_prediction s f).confidence =
      round4 (if (1:ℚ)/2 < success_ratio s f then success_ratio s f
        else 1 - success_ratio s f) := by
  unfold fallback_prediction
  by_cases h : (1:ℚ)/2 < success_ratio s f <;> simp [h]

lemma success_ratio_bounds (s f : List ℚ)
    (hs : ∀ x ∈ s, 0 ≤ x) (hf : ∀ x ∈ f, 0 ≤ x) :
    0 ≤ success_ratio s f ∧ success_ratio s f ≤ 1 := by
  have hS : 0 ≤ s.sum := List.sum_nonneg hs
  have hF : 0 ≤ f.sum := List.sum_nonneg hf
  unfold success_ratio
  by_cases h : 0 < s.sum + f.sum
  · rw [if_pos h]
    exact ⟨div_nonneg hS (le_of_lt h), (div_le_one h).mpr (by linarith)⟩
  · rw [if_neg h]
    norm_num

/-- C9: on the similarity-fallback path the returned confidence always
lies in [0.5, 1], no matter how thin the historical evidence, because it
is (the 4-decimal rounding of) `max(ratio, 1 - ratio)` for a ratio in
[0, 1]. -/
theorem c9_fallback_confidence_bounds (s f : List ℚ)
    (hs : ∀ x ∈ s, 0 ≤ x) (hf : ∀ x ∈ f, 0 ≤ x) :
    1/2 ≤ (predict_adoption_outcome BqOutcome.err s f).confidence ∧
      (predict_adoption_outcome BqOutcome.err s f).confidence ≤ 1 := by
  have hr := success_ratio_bounds s f hs hf
  show 1/2 ≤ (fallback_prediction s f).confidence ∧
    (fallback_prediction s f).confidence ≤ 1
  rw [fallback_confidence_eq]
  have hc : 1/2 ≤ (if (1:ℚ)/2 < success_ratio s f then success_ratio s f
      else 1 - success_ratio s f) ∧
      (if (1:ℚ)/2 < success_ratio s f then success_ratio s f
        else 1 - success_ratio s f) ≤ 1 := by
    split_ifs with h
    · exact ⟨le_of_lt h, hr.2⟩
    · constructor
      · linarith [not_lt.mp h]
      · linarith [hr.1]
  constructor
  · have := round4_mono hc.1
    rwa [round4_half] at this
  · have := round4_mono hc.2
    rwa [round4_one] at this

/-- C9 witness: with no similar cases at all the fallback confidence is
exactly 0.5, inside [0.5, 1]. -/
theorem c9_fallback_confidence_bounds_witness :
    1/2 ≤ (predict_adoption_outcome BqOutcome.err [] []).confidence ∧
      (predict_adoption_outcome BqOutcome.err [] []).confidence ≤ 1 :=
  c9_fallback_confidence_bounds [] [] (by simp) (by simp)

/-- C6 counterexample: with classifier error, success hit scores [1] and
failure hit scores [2], the ratio is 1/3 and the claim formula gives
confidence exactly 1 - 1/3 = 2/3; the code returns the 4-decimal
rounding 0.6667, which differs. -/
theorem c6_confidence_counterexample :
    (predict_adoption_outcome BqOutcome.err [(1:ℚ)] [(2:ℚ)]).predicted_outcome = "returned" ∧
    (predict_adoption_outcome BqOutcome.err [(1:ℚ)] [(2:ℚ)]).confidence = 6667/10000 ∧
    (predict_adoption_outcome BqOutcome.err [(1:ℚ)] [(2:ℚ)]).confidence ≠ 1 - 1/3 := by
  have hr : success_ratio [(1:ℚ)] [(2:ℚ)] = 1/3 := by
    unfold success_ratio
    norm_num
  show (fallback_prediction [(1:ℚ)] [(2:ℚ)]).predicted_outcome = "returned" ∧
    (fallback_prediction [(1:ℚ)] [(2:ℚ)]).confidence = 6667/10000 ∧
    (fallback_prediction [(1:ℚ)] [(2:ℚ)]).confidence ≠ 1 - 1/3
  rw [show (fallback_prediction [(1:ℚ)] [(2:ℚ)]).predicted_outcome =
      (if (1:ℚ)/2 < success_ratio [(1:ℚ)] [(2:ℚ)] then "success" else "returned") from rfl,
    fallback_confidence_eq, hr]
  norm_num [round4, round_eq]

/-- C6 (amended): when the classifier raises, the endpoint recovers
locally and returns the similarity vote: the ratio is
success_total/(success_total+failure_total) when that denominator is
nonzero and 0.5 otherwise; predicted outcome is success exactly when the
ratio exceeds 0.5; the confidence is the ratio (success) or 1 - ratio
(returned), rounded to 4 decimals; with zero hits on both sides the
prediction is returned with confidence exactly 0.5. -/
theorem c6_similarity_fallback :
    (∀ (s f : List ℚ), (∀ x ∈ s, 0 ≤ x) → (∀ x ∈ f, 0 ≤ x) →
      predict_adoption_outcome BqOutcome.err s f =
        (let ratio := if s.sum + f.sum ≠ 0 then s.sum / (s.sum + f.sum) else 1/2
         { predicted_outcome := if (1:ℚ)/2 < ratio then "success" else "returned"
           confidence := round4 (if (1:ℚ)/2 < ratio then ratio else 1 - ratio)
           source := "Elasticsearch Semantic Pattern Matching" })) ∧
    predict_adoption_outcome BqOutcome.err [] [] =
      { predicted_outcome := "returned", confidence := 1/2
        source := "Elasticsearch Semantic Pattern Matching" } := by
  constructor
  · intro s f hs hf
    have hS : 0 ≤ s.sum := List.sum_nonneg hs
    have hF : 0 ≤ f.sum := List.sum_nonneg hf
    have hratio : success_ratio s f =
        (if s.sum + f.sum ≠ 0 then s.sum / (s.sum + f.sum) else 1/2) := by
      unfold success_ratio
      by_cases h : 0 < s.sum + f.sum
      · rw [if_pos h, if_pos (ne_of_gt h)]
      · have hz : s.sum + f.sum = 0 := le_antisymm (not_lt.mp h) (by linarith)
        rw [if_neg h, if_neg (by simp [hz])]
    show fallback_prediction s f = _
    unfold fallback_prediction
    rw [hratio]
    by_cases h : (1:ℚ)/2 < (if s.sum + f.sum ≠ 0 then s.sum / (s.sum + f.sum) else 1/2) <;>
      simp [h]
  · have hr : success_ratio ([] : List ℚ) ([] : List ℚ) = 1/2 := by
      unfold success_ratio
      norm_num
    show fallback_prediction [] [] = _
    unfold fallback_prediction
    rw [hr]
    norm_num [round4_half]

/-- C6 witness: the spec scenario, success hits [1.8, 1.5, 1.2] and
failure hits [0.9]: ratio 5/6, predicted success, confidence 0.8333. -/
theorem c6_similarity_fallback_witness :
    (∀ x ∈ [(9:ℚ)/5, 3/2, 6/5], 0 ≤ x) ∧ (∀ x ∈ [(9:ℚ)/10], 0 ≤ x) ∧
    (predict_adoption_outcome BqOutcome.err [(9:ℚ)/5, 3/2, 6/5] [(9:ℚ)/10]).predicted_outcome =
      "success" ∧
    (predict_adoption_outcome BqOutcome.err [(9:ℚ)/5, 3/2, 6/5] [(9:ℚ)/10]).confidence =
      8333/10000 := by
  have h := c6_similarity_fallback.1 [(9:ℚ)/5, 3/2, 6/5] [(9:ℚ)/10]
    (by norm_num) (by norm_num)
  refine ⟨by norm_num, by norm_num, ?_, ?_⟩ <;> rw [h] <;> norm_num [round4, round_eq]

lemma crit_eval_critical : isCriticalConcern "CRITICAL: No landlord permission" = true := by
  decide

lemma crit_eval_limited : isCriticalConcern "Limited pet ownership experience" = false := by
  decide

lemma crit_eval_housing : isCriticalConcern "Housing may not be suitable" = false := by
  decide

lemma crit_eval_household : isCriticalConcern "Household compatibility concerns" = false := by
  decide

lemma crit_eval_allergies : isCriticalConcern "Household member has allergies" = false := by
  decide

lemma crit_eval_lifestyle : isCriticalConcern "Lifestyle may not align with pet needs" = false := by
  decide

lemma crit_eval_motivation :
    isCriticalConcern "Application essays dont strongly align with this dogs profile" = false := by
  decide

lemma crit_eval_surrender :
    isCriticalConcern "Previous pet surrender without explanation" = false := by
  decide

/-- C1: the recommendation is derived from the computed overall score and
concern list exactly by: CRITICAL concern or overall < 50 gives reject;
otherwise overall at least 80 with at most one concern gives approve;
otherwise review.  Boundary instances: 79.99 with 2 concerns gives
review; 80.00 with exactly 1 concern gives approve; 49.99 with zero
concerns gives reject; a CRITICAL concern gives reject even at 95. -/
theorem c1_recommendation_rule :
    (∀ (overall e h l hh m : ℚ) (app : Application),
      (generate_recommendation overall e h l hh m app).1 =
        if (generate_recommendation overall e h l hh m app).2.any isCriticalConcern = true ∨
            overall < 50 then "reject"
        else if 80 ≤ overall ∧
            (generate_recommendation overall e h l hh m app).2.length ≤ 1 then "approve"
        else "review") ∧
    ((generate_recommendation (7999/100) 39 60 49 60 60 baseApp).2.length = 2 ∧
      (generate_recommendation (7999/100) 39 60 49 60 60 baseApp).1 = "review") ∧
    ((generate_recommendation 80 39 60 60 60 60 baseApp).2.length = 1 ∧
      (generate_recommendation 80 39 60 60 60 60 baseApp).1 = "approve") ∧
    ((generate_recommendation (4999/100) 60 60 60 60 60 baseApp).2.length = 0 ∧
      (generate_recommendation (4999/100) 60 60 60 60 60 baseApp).1 = "reject") ∧
    ((generate_recommendation 95 60 20 60 60 60 aptLeasedApp).2.any isCriticalConcern = true ∧
      (generate_recommendation 95 60 20 60 60 60 aptLeasedApp).1 = "reject") := by
  have hc1 : concernsOf 39 60 60 49 60 baseApp =
      ["Limited pet ownership experience", "Lifestyle may not align with pet needs"] := by
    norm_num [concernsOf, baseApp]
  have hc2 : concernsOf 39 60 60 60 60 baseApp = ["Limited pet ownership experience"] := by
    norm_num [concernsOf, baseApp]
  have hc3 : concernsOf 60 60 60 60 60 baseApp = [] := by
    norm_num [concernsOf, baseApp]
  have hc4 : concernsOf 60 20 60 60 60 aptLeasedApp =
      ["Housing may not be suitable", "CRITICAL: No landlord permission"] := by
    norm_num [concernsOf, aptLeasedApp, baseApp]
    decide
  refine ⟨fun overall e h l hh m app => rfl, ⟨?_, ?_⟩, ⟨?_, ?_⟩, ⟨?_, ?_⟩, ⟨?_, ?_⟩⟩
  · show (concernsOf 39 60 60 49 60 baseApp).length = 2
    rw [hc1]
    rfl
  · show (if (concernsOf 39 60 60 49 60 baseApp).any isCriticalConcern = true ∨
        (7999:ℚ)/100 < 50 then "reject"
      else if (80:ℚ) ≤ 7999/100 ∧ (concernsOf 39 60 60 49 60 baseApp).length ≤ 1 then "approve"
      else "review") = "review"
    rw [hc1]
    norm_num [crit_eval_limited, crit_eval_lifestyle]
  · show (concernsOf 39 60 60 60 60 baseApp).length = 1
    rw [hc2]
    rfl
  · show (if (concernsOf 39 60 60 60 60 baseApp).any isCriticalConcern = true ∨
        (80:ℚ) < 50 then "reject"
      else if (80:ℚ) ≤ 80 ∧ (concernsOf 39 60 60 60 60 baseApp).length ≤ 1 then "approve"
      else "review") = "approve"
    rw [hc2]
    norm_num [crit_eval_limited]
  · show (concernsOf 60 60 60 60 60 baseApp).length = 0
    rw [hc3]
    rfl
  · show (if (concernsOf 60 60 60 60 60 baseApp).any isCriticalConcern = true ∨
        (4999:ℚ)/100 < 50 then "reject"
      else if (80:ℚ) ≤ 4999/100 ∧ (concernsOf 60 60 60 60 60 baseApp).length ≤ 1 then "approve"
      else "review") = "reject"
    rw [hc3]
    norm_num
  · show (concernsOf 60 20 60 60 60 aptLeasedApp).any isCriticalConcern = true
    rw [hc4]
    norm_num [crit_eval_housing, crit_eval_critical]
  · show (if (concernsOf 60 20 60 60 60 aptLeasedApp).any isCriticalConcern = true ∨
        (95:ℚ) < 50 then "reject"
      else if (95:ℚ) ≤ 80 ∧ (concernsOf 60 20 60 60 60 aptLeasedApp).length ≤ 1 then "approve"
      else "review") = "reject"
    rw [hc4]
    norm_num [crit_eval_housing, crit_eval_critical]

lemma calc_concerns (app : Application) (dog : Dog) (m : SearchOutcome) :
    (calculate_compatibility app dog m).concerns =
      concernsOf (score_experience app) (score_housing app dog) (score_household app)
        (score_lifestyle app) (score_motivation m) app := rfl

lemma calc_reco (app : Application) (dog : Dog) (m : SearchOutcome) :
    (calculate_compatibility app dog m).recommendation =
      (generate_recommendation
        (score_experience app * weights.experience + score_housing app dog * weights.housing +
          score_lifestyle app * weights.lifestyle + score_household app * weights.household +
          score_motivation m * weights.motivation)
        (score_experience app) (score_housing app dog) (score_lifestyle app)
        (score_household app) (score_motivation m) app).1 := rfl

lemma critical_mem_concerns (e h hh l m : ℚ) (app : Application)
    (hh50 : h < 50)
    (hlr : app.housing_info.ownership_status = "Leased" ∨
      app.housing_info.ownership_status = "Rented")
    (hperm : app.housing_info.landlord_permission_granted ≠ "Yes") :
    "CRITICAL: No landlord permission" ∈ concernsOf e h hh l m app := by
  have hcond : (app.housing_info.ownership_status = "Leased" ∨
      app.housing_info.ownership_status = "Rented") ∧
      app.housing_info.landlord_permission_granted ≠ "Yes" := ⟨hlr, hperm⟩
  unfold concernsOf
  rw [if_pos hh50, if_pos hcond]
  simp [List.mem_append]

lemma reject_of_critical (overall e h l hh m : ℚ) (app : Application)
    (hc : "CRITICAL: No landlord permission" ∈ concernsOf e h hh l m app) :
    (generate_recommendation overall e h l hh m app).1 = "reject" := by
  have hany : (concernsOf e h hh l m app).any isCriticalConcern = true :=
    List.any_eq_true.mpr ⟨_, hc, crit_eval_critical⟩
  show (if (concernsOf e h hh l m app).any isCriticalConcern = true ∨ overall < 50
    then "reject"
    else if 80 ≤ overall ∧ (concernsOf e h hh l m app).length ≤ 1 then "approve"
    else "review") = "reject"
  rw [if_pos (Or.inl hany)]

lemma score_housing_apt35 : score_housing aptLeasedApp dog35 = 30 := by
  have h1 : spaceAdj aptLeasedApp dog35 = 0 := by decide
  have h2 : energyAdj aptLeasedApp dog35 = 0 := by decide
  have h3 : landlordAdj aptLeasedApp = -40 := by decide
  have h4 : typeAdj aptLeasedApp dog35 = 0 := by decide
  rw [score_housing, h1, h2, h3, h4]
  norm_num [pyMin, pyMax]

/-- C3 counterexample: for the spec housing scenario with a dog of
exactly 35 kg, the apartment penalty (which requires weight strictly
greater than 35) does not fire, so the housing score is 30, not 20. -/
theorem c3_housing_score_counterexample :
    score_housing aptLeasedApp dog35 = 30 ∧ score_housing aptLeasedApp dog35 ≠ 20 := by
  refine ⟨score_housing_apt35, ?_⟩
  rw [score_housing_apt35]
  norm_num

/-- C3 (amended): for a 35 kg dog, Apartment, Leased, landlord permission
"No" and no other housing adjustment applying, the housing score is
70 - 40 = 30 (the apartment penalty needs weight > 35 kg, so it does not
apply at exactly 35 kg); the recommendation is reject because the
CRITICAL landlord concern is present, whatever the motivation search
returns. -/
theorem c3_housing_scenario_reject (m : SearchOutcome) :
    score_housing aptLeasedApp dog35 = 30 ∧
    "CRITICAL: No landlord permission" ∈ (calculate_compatibility aptLeasedApp dog35 m).concerns ∧
    (calculate_compatibility aptLeasedApp dog35 m).recommendation = "reject" := by
  have hmem : "CRITICAL: No landlord permission" ∈
      concernsOf (score_experience aptLeasedApp) (score_housing aptLeasedApp dog35)
        (score_household aptLeasedApp) (score_lifestyle aptLeasedApp)
        (score_motivation m) aptLeasedApp := by
    refine critical_mem_concerns _ _ _ _ _ _ ?_ (Or.inl rfl) (by decide)
    rw [score_housing_apt35]
    norm_num
  refine ⟨score_housing_apt35, ?_, ?_⟩
  · rw [calc_concerns]
    exact hmem
  · rw [calc_reco]
    exact reject_of_critical _ _ _ _ _ _ _ hmem

/-- C5 counterexample: an application that is Leased with landlord
permission "No" but collects every other housing bonus scores 65 on
housing, so no housing concern (and no CRITICAL concern) is raised and
the recommendation is approve, not reject. -/
theorem c5_no_critical_counterexample :
    bonusLeasedApp.housing_info.ownership_status = "Leased" ∧
    bonusLeasedApp.housing_info.landlord_permission_granted = "No" ∧
    score_housing bonusLeasedApp dog32 = 65 ∧
    (calculate_compatibility bonusLeasedApp dog32 (SearchOutcome.ok [8/5])).concerns = [] ∧
    (calculate_compatibility bonusLeasedApp dog32 (SearchOutcome.ok [8/5])).recommendation =
      "approve" := by
  have he : score_experience bonusLeasedApp = 95 := by
    simp +decide [score_experience, bonusLeasedApp, strTruthy, pyMin, pyMax]
    norm_num
  have hho : score_housing bonusLeasedApp dog32 = 65 := by
    have h1 : spaceAdj bonusLeasedApp dog32 = 15 := by decide
    have h2 : energyAdj bonusLeasedApp dog32 = 15 := by decide
    have h3 : landlordAdj bonusLeasedApp = -40 := by decide
    have h4 : typeAdj bonusLeasedApp dog32 = 5 := by decide
    rw [score_housing, h1, h2, h3, h4]
    norm_num [pyMin, pyMax]
  have hl : score_lifestyle bonusLeasedApp = 100 := by
    simp +decide [score_lifestyle, bonusLeasedApp, pyMin, pyMax]
    norm_num
  have hd : score_household bonusLeasedApp = 100 := by
    simp +decide [score_household, bonusLeasedApp, strTruthy, pyMin, pyMax]
    norm_num
  have hm : score_motivation (SearchOutcome.ok [8/5]) = 80 := by
    rw [score_motivation]
    norm_num [pyMin, pyMax]
  have hcon : (calculate_compatibility bonusLeasedApp dog32 (SearchOutcome.ok [8/5])).concerns =
      [] := by
    rw [calc_concerns, he, hho, hd, hl, hm]
    norm_num [concernsOf, bonusLeasedApp]
  refine ⟨rfl, rfl, hho, hcon, ?_⟩
  rw [calc_reco, he, hho, hd, hl, hm]
  have hcon2 : concernsOf 95 65 100 100 80 bonusLeasedApp = [] := by
    norm_num [concernsOf, bonusLeasedApp]
  show (if (concernsOf 95 65 100 100 80 bonusLeasedApp).any isCriticalConcern = true ∨
      (95:ℚ) * weights.experience + 65 * weights.housing + 100 * weights.lifestyle +
        100 * weights.household + 80 * weights.motivation < 50 then "reject"
    else if 80 ≤ (95:ℚ) * weights.experience + 65 * weights.housing + 100 * weights.lifestyle +
        100 * weights.household + 80 * weights.motivation ∧
        (concernsOf 95 65 100 100 80 bonusLeasedApp).length ≤ 1 then "approve"
    else "review") = "approve"
  rw [hcon2]
  norm_num [weights]

/-- C5 (amended): for a Leased/Rented application with landlord
permission "No" the housing dimension always receives the -40 landlord
adjustment; and whenever the resulting housing score is below 50 the
result carries the CRITICAL landlord concern and the recommendation is
reject.  (Other housing bonuses can lift the score to 50 or more, in
which case no CRITICAL concern is raised.) -/
theorem c5_landlord_no_permission (app : Application) (dog : Dog) (m : SearchOutcome)
    (hlr : app.housing_info.ownership_status = "Leased" ∨
      app.housing_info.ownership_status = "Rented")
    (hperm : app.housing_info.landlord_permission_granted = "No") :
    landlordAdj app = -40 ∧
    score_housing app dog =
      pyMin 100 (pyMax 0 (70 + spaceAdj app dog + energyAdj app dog + -40 + typeAdj app dog)) ∧
    (score_housing app dog < 50 →
      "CRITICAL: No landlord permission" ∈ (calculate_compatibility app dog m).concerns ∧
      (calculate_compatibility app dog m).recommendation = "reject") := by
  have hadj : landlordAdj app = -40 := by
    unfold landlordAdj
    rw [if_pos hlr, if_neg (by rw [hperm]; decide), if_pos hperm]
  refine ⟨hadj, by rw [score_housing, hadj], fun hlt => ?_⟩
  have hmem : "CRITICAL: No landlord permission" ∈
      concernsOf (score_experience app) (score_housing app dog) (score_household app)
        (score_lifestyle app) (score_motivation m) app :=
    critical_mem_concerns _ _ _ _ _ _ hlt hlr (by rw [hperm]; decide)
  constructor
  · rw [calc_concerns]
    exact hmem
  · rw [calc_reco]
    exact reject_of_critical _ _ _ _ _ _ _ hmem

/-- C5 witness: the 35 kg apartment scenario satisfies the hypotheses;
its housing score 30 is below 50, so the CRITICAL concern and the reject
recommendation follow. -/
theorem c5_landlord_no_permission_witness :
    (aptLeasedApp.housing_info.ownership_status = "Leased" ∨
      aptLeasedApp.housing_info.ownership_status = "Rented") ∧
    aptLeasedApp.housing_info.landlord_permission_granted = "No" ∧
    landlordAdj aptLeasedApp = -40 ∧
    ("CRITICAL: No landlord permission" ∈
        (calculate_compatibility aptLeasedApp dog35 SearchOutcome.err).concerns ∧
      (calculate_compatibility aptLeasedApp dog35 SearchOutcome.err).recommendation =
        "reject") := by
  have h := c5_landlord_no_permission aptLeasedApp dog35 SearchOutcome.err (Or.inl rfl) rfl
  exact ⟨Or.inl rfl, rfl, h.1, h.2.2 (by rw [score_housing_apt35]; norm_num)⟩

/-- C4: evaluation at the failing input.  For an agreement text equal to
"disagree" the code awards +20, not -40: since "agree" is a substring of
"disagree", the first branch fires and the explicit elif test for
"disagree" is unreachable.  With all other household fields neutral the
household score is 70 + 20 = 90, not 70 - 40 = 30. -/
theorem c4_disagree_scores_90 :
    disagreeApp.household_info.all_members_agree = some "disagree" ∧
    strContainsB (toLowerStr "disagree") "agree" = true ∧
    score_household disagreeApp = 90 ∧
    score_household disagreeApp ≠ 30 := by
  have h : score_household disagreeApp = 90 := by
    simp +decide [score_household, disagreeApp, baseApp, strTruthy, pyMin, pyMax]
    norm_num
  refine ⟨rfl, by decide, h, ?_⟩
  rw [h]
  norm_num

lemma insertDesc_perm (x : RankedEntry) (l : List RankedEntry) :
    (insertDesc x l).Perm (x :: l) := by
  induction l with
  | nil => rfl
  | cons y ys ih =>
    rw [insertDesc]
    split_ifs with h
    · exact (List.Perm.cons y ih).trans (List.Perm.swap x y ys)
    · rfl

lemma sortScoredDesc_perm (l : List RankedEntry) : (sortScoredDesc l).Perm l := by
  induction l with
  | nil => rfl
  | cons x xs ih =>
    rw [sortScoredDesc]
    exact (insertDesc_perm x (sortScoredDesc xs)).trans (List.Perm.cons x ih)

lemma mem_insertDesc {z x : RankedEntry} {l : List RankedEntry} :
    z ∈ insertDesc x l ↔ z = x ∨ z ∈ l := by
  rw [(insertDesc_perm x l).mem_iff, List.mem_cons]

lemma insertDesc_pairwise (x : RankedEntry) (l : List RankedEntry)
    (hl : l.Pairwise (fun a b => b.compatibility.overall_score ≤ a.compatibility.overall_score ∧
      (a.compatibility.overall_score = b.compatibility.overall_score → a.idx < b.idx)))
    (hx : ∀ y ∈ l, x.idx < y.idx) :
    (insertDesc x l).Pairwise
      (fun a b => b.compatibility.overall_score ≤ a.compatibility.overall_score ∧
        (a.compatibility.overall_score = b.compatibility.overall_score → a.idx < b.idx)) := by
  induction l with
  | nil => simp [insertDesc]
  | cons y ys ih =>
    rw [List.pairwise_cons] at hl
    obtain ⟨hy, hys⟩ := hl
    rw [insertDesc]
    split_ifs with h
    · rw [List.pairwise_cons]
      constructor
      · intro z hz
        rcases mem_insertDesc.mp hz with hzx | hzys
        · subst hzx
          exact ⟨le_of_lt h, fun he => absurd he (by intro he2; rw [he2] at h; exact lt_irrefl _ h)⟩
        · exact hy z hzys
      · exact ih hys (fun z hz => hx z (List.mem_cons_of_mem y hz))
    · rw [List.pairwise_cons]
      constructor
      · intro z hz
        rcases List.mem_cons.mp hz with hzy | hzys
        · subst hzy
          exact ⟨not_lt.mp h, fun _ => hx z (List.mem_cons_self z ys)⟩
        · exact ⟨le_trans (hy z hzys).1 (not_lt.mp h),
            fun _ => hx z (List.mem_cons_of_mem y hzys)⟩
      · rw [List.pairwise_cons]
        exact ⟨hy, hys⟩

lemma sortScoredDesc_pairwise (l : List RankedEntry)
    (hl : l.Pairwise (fun a b => a.idx < b.idx)) :
    (sortScoredDesc l).Pairwise
      (fun a b => b.compatibility.overall_score ≤ a.compatibility.overall_score ∧
        (a.compatibility.overall_score = b.compatibility.overall_score → a.idx < b.idx)) := by
  induction l with
  | nil => simp [sortScoredDesc]
  | cons x xs ih =>
    rw [List.pairwise_cons] at hl
    obtain ⟨hx0, hxs⟩ := hl
    rw [sortScoredDesc]
    exact insertDesc_pairwise x (sortScoredDesc xs) (ih hxs)
      (fun y hy => hx0 y ((sortScoredDesc_perm xs).mem_iff.mp hy))

lemma scoredFrom_idx_le (n : ℕ) (xs : List (Except Unit CompatibilityResult)) :
    ∀ y ∈ scoredFrom n xs, n ≤ y.idx := by
  induction xs generalizing n with
  | nil => intro y hy; simp [scoredFrom] at hy
  | cons hd tl ih =>
    intro y hy
    cases hd with
    | ok c =>
      rw [scoredFrom] at hy
      rcases List.mem_cons.mp hy with hy0 | hy1
      · subst hy0; exact le_refl n
      · exact le_trans (Nat.le_succ n) (ih (n + 1) y hy1)
    | error e =>
      rw [scoredFrom] at hy
      exact le_trans (Nat.le_succ n) (ih (n + 1) y hy)

lemma scoredFrom_pairwise (n : ℕ) (xs : List (Except Unit CompatibilityResult)) :
    (scoredFrom n xs).Pairwise (fun a b => a.idx < b.idx) := by
  induction xs generalizing n with
  | nil => simp [scoredFrom]
  | cons hd tl ih =>
    cases hd with
    | ok c =>
      rw [scoredFrom, List.pairwise_cons]
      exact ⟨fun y hy => lt_of_lt_of_le (Nat.lt_succ_self n) (scoredFrom_idx_le (n + 1) tl y hy),
        ih (n + 1)⟩
    | error e =>
      rw [scoredFrom]
      exact ih (n + 1)

/-- C7: ranking keeps exactly the successfully scored candidates (skipped
failures are excluded without failing the batch), sorts them by overall
score descending with original fetch order breaking ties, and returns the
first `limit` entries. -/
theorem c7_ranking (xs : List (Except Unit CompatibilityResult)) (limit : ℕ) :
    (sortScoredDesc (scoredEntries xs)).Perm (scoredEntries xs) ∧
    rank_applications_for_dog xs limit = (sortScoredDesc (scoredEntries xs)).take limit ∧
    (rank_applications_for_dog xs limit).length = min limit (scoredEntries xs).length ∧
    (rank_applications_for_dog xs limit).Pairwise
      (fun a b => b.compatibility.overall_score ≤ a.compatibility.overall_score) ∧
    (rank_applications_for_dog xs limit).Pairwise
      (fun a b => a.compatibility.overall_score = b.compatibility.overall_score →
        a.idx < b.idx) := by
  have hperm := sortScoredDesc_perm (scoredEntries xs)
  have hpw := sortScoredDesc_pairwise (scoredEntries xs) (scoredFrom_pairwise 0 xs)
  have htake : List.Sublist ((sortScoredDesc (scoredEntries xs)).take limit)
      (sortScoredDesc (scoredEntries xs)) := List.take_sublist _ _
  refine ⟨hperm, rfl, ?_, ?_, ?_⟩
  · rw [rank_applications_for_dog, List.length_take, hperm.length_eq]
  · exact List.Pairwise.sublist htake (hpw.imp (fun h => h.1))
  · exact List.Pairwise.sublist htake (hpw.imp (fun h => h.2))

end PawBond
